import Mathlib

/-!
Verification development for the steel-design parametric building
geometry engine.  The definitions below are shallow embeddings of the
TypeScript source: the configuration store (useStore.ts), the Building
component (roof solver, frame layout, end walls, wainscot, lean-to
engine, visibility policy) and the DraggableDoor pointer-drag handler.
JavaScript numbers are modelled as exact rationals; values produced by
Math.sqrt and Math.atan2 are modelled in the reals.
-/

namespace SteelDesign

/-! ## Data model (useStore.ts) -/

/-- Wall sides of the main building. -/
inductive WallSide
  | north | south | east | west
deriving DecidableEq, Repr

/-- Roof styles. -/
inductive RoofStyle
  | gable | singleSlope | asymmetrical
deriving DecidableEq, Repr

/-- Sky type for the environment (no geometric effect). -/
inductive SkyType
  | day | sunset | night
deriving DecidableEq, Repr

/-- Ground type for the environment (no geometric effect). -/
inductive GroundType
  | grass | concrete | gravel
deriving DecidableEq, Repr

/-- The view mode of the camera. -/
inductive ViewMode
  | exterior | interior
deriving DecidableEq, Repr

/-- The four-state visibility mode. -/
inductive VisibilityMode
  | full | hideWalls | hideRoof | frameOnly
deriving DecidableEq, Repr

/-- Lean-to wall coverage variants. -/
inductive LeanToWallType
  | fullLength | fullyEnclosed | openWalls | gableDress | gableWallsOnly | apron2ft
deriving DecidableEq, Repr

/-- Door and window types (the TS string-literal union DoorType). -/
inductive DoorType
  | walkSingle | walkDouble | walkHalfGlass | slidingGlass | dutchEquine
  | overhead | overheadModern | overheadGlass | sliding | slidingLeft
  | slidingRight | rollUp | biFold | hydraulic | windowSlider | windowHopper
deriving DecidableEq, Repr

/-- The TS string literal that each DoorType constructor denotes. -/
def doorTypeString : DoorType → String
  | .walkSingle => "walk-single"
  | .walkDouble => "walk-double"
  | .walkHalfGlass => "walk-half-glass"
  | .slidingGlass => "sliding-glass"
  | .dutchEquine => "dutch-equine"
  | .overhead => "overhead"
  | .overheadModern => "overhead-modern"
  | .overheadGlass => "overhead-glass"
  | .sliding => "sliding"
  | .slidingLeft => "sliding-left"
  | .slidingRight => "sliding-right"
  | .rollUp => "roll-up"
  | .biFold => "bi-fold"
  | .hydraulic => "hydraulic"
  | .windowSlider => "window-slider"
  | .windowHopper => "window-hopper"

/-- Walls an opening can be assigned to (four main sides plus lean-to sides). -/
inductive OpeningWall
  | north | south | east | west
  | leanToNorth | leanToSouth | leanToEast | leanToWest
deriving DecidableEq, Repr

/-- Per-side lean-to configuration. -/
structure LeanToConfig where
  enabled : Bool
  drop : ℚ
  cutL : ℚ
  cutR : ℚ
  depth : ℚ
  roofPitch : ℚ
  walls : LeanToWallType
deriving DecidableEq, Repr

/-- Legacy lean-to record. -/
structure LeanTo where
  id : String
  wall : WallSide
  width : ℚ
  length : ℚ
  height : ℚ
deriving DecidableEq, Repr

/-- A door or window opening. -/
structure Opening where
  id : String
  type : DoorType
  wall : OpeningWall
  position : ℚ
  width : ℚ
  height : ℚ
  bottomOffset : ℚ
deriving DecidableEq, Repr

/-- Building dimensions. -/
structure Dimensions where
  width : ℚ
  length : ℚ
  eaveHeight : ℚ
deriving DecidableEq, Repr

/-- Roof configuration. -/
structure RoofConfig where
  style : RoofStyle
  pitch : ℚ
  asymmetricOffset : ℚ
  overhangs : WallSide → ℚ
  ridgeVents : ℕ
  cupola2ft : ℕ
  cupola3ft : ℕ

/-- The four color slots (visual only). -/
structure Colors where
  roof : String
  wall : String
  trim : String
  wainscot : String
deriving DecidableEq, Repr

/-- Wall configuration. -/
structure WallsConfig where
  enclosed : WallSide → Bool
  wainscotEnabled : Bool
  wainscotHeight : ℚ

/-- Environment configuration (no geometric effect). -/
structure Environment where
  sky : SkyType
  ground : GroundType
  showGrid : Bool
deriving DecidableEq, Repr

/-- UI interaction state. -/
structure UIState where
  expandedPanel : Option String
  viewMode : ViewMode
  visibilityMode : VisibilityMode
  placementMode : Option DoorType
  selectedOpeningId : Option String
  isDraggingDoor : Bool
deriving DecidableEq, Repr

/-- The whole store state (BuildingState in useStore.ts). -/
structure BuildingState where
  dimensions : Dimensions
  roof : RoofConfig
  colors : Colors
  walls : WallsConfig
  leanToConfigs : WallSide → LeanToConfig
  leanTos : List LeanTo
  openings : List Opening
  environment : Environment
  ui : UIState

/-- Initial store state (the create() defaults in useStore.ts). -/
def initialState : BuildingState where
  dimensions := { width := 30, length := 40, eaveHeight := 10 }
  roof :=
    { style := .gable, pitch := 4, asymmetricOffset := 4
      overhangs := fun side =>
        match side with
        | .north => 0 | .south => 0 | .east => 1 | .west => 1
      ridgeVents := 0, cupola2ft := 0, cupola3ft := 0 }
  colors :=
    { roof := "#5c4033", wall := "#e8e4d9", trim := "#5c4033",
      wainscot := "#5c4033" }
  walls := { enclosed := fun _ => true, wainscotEnabled := false, wainscotHeight := 3 }
  leanToConfigs := fun _ =>
    { enabled := false, drop := 1, cutL := 0, cutR := 0, depth := 12,
      roofPitch := 3, walls := .fullLength }
  leanTos := []
  openings := []
  environment := { sky := .day, ground := .grass, showGrid := true }
  ui :=
    { expandedPanel := some "dimensions", viewMode := .exterior,
      visibilityMode := .full, placementMode := none,
      selectedOpeningId := none, isDraggingDoor := false }

/-! ## Math.atan2 -/

/-- JavaScript Math.atan2 on the reals. -/
noncomputable def atan2 (y x : ℝ) : ℝ :=
  if 0 < x then Real.arctan (y / x)
  else if x < 0 then
    (if 0 ≤ y then Real.arctan (y / x) + Real.pi
     else Real.arctan (y / x) - Real.pi)
  else if 0 < y then Real.pi / 2
  else if y < 0 then -(Real.pi / 2)
  else 0

/-! ## Roof geometry solver (Building, lines 273-286) -/

/-- Gable roof rise: roofRise = (width / 2) * (pitch / 12). -/
def roofRise (width pitch : ℚ) : ℚ := (width / 2) * (pitch / 12)

/-- Gable roof angle: Math.atan2(roofRise, width / 2). -/
noncomputable def roofAngle (width pitch : ℚ) : ℝ :=
  atan2 (roofRise width pitch : ℝ) ((width : ℝ) / 2)

/-- Gable roof panel length: Math.sqrt((width / 2) ** 2 + roofRise ** 2). -/
noncomputable def roofPanelLength (width pitch : ℚ) : ℝ :=
  Real.sqrt (((width : ℝ) / 2) ^ 2 + (roofRise width pitch : ℝ) ^ 2)

/-- Asymmetrical peak offset: ((asymmetricOffset - 5) / 5) * (width / 2) * 0.8. -/
def peakOffset (width asymmetricOffset : ℚ) : ℚ :=
  ((asymmetricOffset - 5) / 5) * (width / 2) * 0.8

/-- Width of the left roof panel: width / 2 + peakOffset. -/
def leftWidth (width asymmetricOffset : ℚ) : ℚ :=
  width / 2 + peakOffset width asymmetricOffset

/-- Width of the right roof panel: width / 2 - peakOffset. -/
def rightWidth (width asymmetricOffset : ℚ) : ℚ :=
  width / 2 - peakOffset width asymmetricOffset

/-- Left asymmetrical panel length: Math.sqrt(leftWidth ** 2 + roofRise ** 2). -/
noncomputable def leftRoofLength (width pitch asymmetricOffset : ℚ) : ℝ :=
  Real.sqrt ((leftWidth width asymmetricOffset : ℝ) ^ 2 + (roofRise width pitch : ℝ) ^ 2)

/-- Right asymmetrical panel length: Math.sqrt(rightWidth ** 2 + roofRise ** 2). -/
noncomputable def rightRoofLength (width pitch asymmetricOffset : ℚ) : ℝ :=
  Real.sqrt ((rightWidth width asymmetricOffset : ℝ) ^ 2 + (roofRise width pitch : ℝ) ^ 2)

/-- Left asymmetrical roof angle: Math.atan2(roofRise, leftWidth). -/
noncomputable def leftRoofAngle (width pitch asymmetricOffset : ℚ) : ℝ :=
  atan2 (roofRise width pitch : ℝ) (leftWidth width asymmetricOffset : ℝ)

/-- Right asymmetrical roof angle: Math.atan2(roofRise, rightWidth). -/
noncomputable def rightRoofAngle (width pitch asymmetricOffset : ℚ) : ℝ :=
  atan2 (roofRise width pitch : ℝ) (rightWidth width asymmetricOffset : ℝ)

/-! ## Visibility policy (Building, lines 288-292) -/

/-- Walls render only in full mode. -/
def showWalls (m : VisibilityMode) : Bool := m = VisibilityMode.full

/-- Roof renders in full and hide-walls modes. -/
def showRoof (m : VisibilityMode) : Bool :=
  m = VisibilityMode.full || m = VisibilityMode.hideWalls

/-- Secondary members (purlins, girts) hidden in frame-only mode. -/
def showSecondaryMembers (m : VisibilityMode) : Bool :=
  !(m = VisibilityMode.frameOnly : Bool)

/-! ## Frame layout engine (Building, lines 297-300 and 453-465) -/

/-- Maximum primary-frame spacing. -/
def maxSpacing : ℚ := 25

/-- Number of primary frames: Math.max(2, Math.ceil(length / maxSpacing) + 1). -/
def numFrames (length : ℚ) : ℤ := max 2 (⌈length / maxSpacing⌉ + 1)

/-- Nominal frame spacing: length / (numFrames - 1). -/
def frameSpacing (length : ℚ) : ℚ := length / ((numFrames length : ℚ) - 1)

/-- Inset of the first and last frames from the end walls. -/
def mainEndWallInset : ℚ := 1.0

/-- Z position of frame i: nominal spacing with the first and last frames
overridden to sit mainEndWallInset inside the end walls. -/
def frameZPos (length : ℚ) (i : ℕ) : ℚ :=
  let zPos := -length / 2 + (i : ℚ) * frameSpacing length
  if i = 0 then -length / 2 + mainEndWallInset
  else if (i : ℤ) = numFrames length - 1 then length / 2 - mainEndWallInset
  else zPos

/-! ## Opening drag engine (DraggableDoor, lines 24-137) -/

/-- Wall length seen from an opening: building width for south/north,
building length for east/west, and width as the fallthrough default. -/
def getWallLength (wall : OpeningWall) (buildingWidth buildingLength : ℚ) : ℚ :=
  if wall = OpeningWall.south ∨ wall = OpeningWall.north then buildingWidth
  else if wall = OpeningWall.east ∨ wall = OpeningWall.west then buildingLength
  else buildingWidth

/-- Maximum opening position: Math.max(0, wallLength - opening.width). -/
def maxPosition (wallLength openingWidth : ℚ) : ℚ :=
  max 0 (wallLength - openingWidth)

/-- Whether the opening type is a window: opening.type.startsWith("window"). -/
def isWindow (t : DoorType) : Bool := (doorTypeString t).startsWith "window"

/-- Drag-start record captured on pointer-down. -/
structure DragStart where
  position : ℚ
  bottomOffset : ℚ
  mouseX : ℚ
  mouseY : ℚ
deriving DecidableEq, Repr

/-- One handlePointerMove step: clientX/clientY are the pointer position of
this move event; cur is the current (position, bottomOffset) of the
opening; the result is the pair passed to updateOpening. -/
def handlePointerMove (o : Opening) (buildingWidth buildingLength sizeWidth sizeHeight : ℚ)
    (start : DragStart) (cur : ℚ × ℚ) (clientX clientY : ℚ) : ℚ × ℚ :=
  let wallLength := getWallLength o.wall buildingWidth buildingLength
  let maxPos := maxPosition wallLength o.width
  let deltaX := clientX - start.mouseX
  let deltaY := clientY - start.mouseY
  let sensitivityX := wallLength / sizeWidth * 2
  let sensitivityY := 20 / sizeHeight * 2
  let newPosition0 := start.position + deltaX * sensitivityX
  let newPosition1 :=
    if o.wall = OpeningWall.north then start.position - deltaX * sensitivityX
    else newPosition0
  let newPosition2 :=
    if o.wall = OpeningWall.west then start.position - deltaX * sensitivityX
    else newPosition1
  let newPosition := max 0 (min maxPos newPosition2)
  let newBottomOffset :=
    if isWindow o.type then
      let maxBottomOffset := max 0 (14 - o.height)
      max 0 (min maxBottomOffset (start.bottomOffset - deltaY * sensitivityY))
    else cur.2
  (newPosition, newBottomOffset)

/-- Fold a finite sequence of pointer-move events through handlePointerMove. -/
def dragMoves (o : Opening) (buildingWidth buildingLength sizeWidth sizeHeight : ℚ)
    (start : DragStart) (init : ℚ × ℚ) (events : List (ℚ × ℚ)) : ℚ × ℚ :=
  events.foldl
    (fun cur e =>
      handlePointerMove o buildingWidth buildingLength sizeWidth sizeHeight start cur e.1 e.2)
    init

/-! ## End-wall geometry builder (Building, lines 307-432) -/

/-- Vertex buffer of the unified gable pentagon end wall (three triangles,
coordinates flattened x, y, z per vertex). -/
def gableEndWallVertices (width eaveHeight pitch : ℚ) : List ℚ :=
  let hw := width / 2
  let peakExtra : ℚ := 0.2
  let rise := roofRise width pitch
  [ -hw, 0, 0,
    hw, 0, 0,
    hw, eaveHeight, 0,
    -hw, 0, 0,
    hw, eaveHeight, 0,
    -hw, eaveHeight, 0,
    -hw, eaveHeight, 0,
    hw, eaveHeight, 0,
    0, eaveHeight + rise + peakExtra, 0 ]

/-- UV buffer of the unified gable pentagon end wall. -/
def gableEndWallUVs (width eaveHeight pitch : ℚ) : List ℚ :=
  let peakExtra : ℚ := 0.2
  let totalHeight := eaveHeight + roofRise width pitch + peakExtra
  [ 0, 0,
    1, 0,
    1, eaveHeight / totalHeight,
    0, 0,
    1, eaveHeight / totalHeight,
    0, eaveHeight / totalHeight,
    0, eaveHeight / totalHeight,
    1, eaveHeight / totalHeight,
    0.5, 1 ]

/-- Vertex buffer of the unified asymmetrical pentagon end wall. -/
def asymmetricalEndWallVertices (width eaveHeight pitch asymmetricOffset : ℚ) : List ℚ :=
  let hw := width / 2
  let peakExtra : ℚ := 0.2
  let rise := roofRise width pitch
  let peak := peakOffset width asymmetricOffset
  [ -hw, 0, 0,
    hw, 0, 0,
    hw, eaveHeight, 0,
    -hw, 0, 0,
    hw, eaveHeight, 0,
    -hw, eaveHeight, 0,
    -hw, eaveHeight, 0,
    hw, eaveHeight, 0,
    peak, eaveHeight + rise + peakExtra, 0 ]

/-- UV buffer of the unified asymmetrical pentagon end wall. -/
def asymmetricalEndWallUVs (width eaveHeight pitch asymmetricOffset : ℚ) : List ℚ :=
  let hw := width / 2
  let peakExtra : ℚ := 0.2
  let totalHeight := eaveHeight + roofRise width pitch + peakExtra
  let peakU := (peakOffset width asymmetricOffset + hw) / (2 * hw)
  [ 0, 0,
    1, 0,
    1, eaveHeight / totalHeight,
    0, 0,
    1, eaveHeight / totalHeight,
    0, eaveHeight / totalHeight,
    0, eaveHeight / totalHeight,
    1, eaveHeight / totalHeight,
    peakU, 1 ]

/-- Vertex buffer of the unified single-slope quadrilateral end wall. -/
def singleSlopeEndWallVertices (width eaveHeight pitch : ℚ) : List ℚ :=
  let hw := width / 2
  let topOffset : ℚ := -0.1
  let rise := roofRise width pitch
  [ -hw, 0, 0,
    hw, 0, 0,
    hw, eaveHeight + rise + topOffset, 0,
    -hw, 0, 0,
    hw, eaveHeight + rise + topOffset, 0,
    -hw, eaveHeight + topOffset, 0 ]

/-- UV buffer of the unified single-slope quadrilateral end wall. -/
def singleSlopeEndWallUVs (width eaveHeight pitch : ℚ) : List ℚ :=
  let topOffset : ℚ := -0.1
  let totalHeight := eaveHeight + roofRise width pitch + topOffset
  [ 0, 0,
    1, 0,
    1, 1,
    0, 0,
    1, 1,
    0, eaveHeight / totalHeight ]

/-! ## Main frame geometry (Building, lines 442-680) -/

/-- Axis-aligned box primitive: center position and box dimensions. -/
structure BoxMesh where
  position : ℚ × ℚ × ℚ
  size : ℚ × ℚ × ℚ
deriving DecidableEq, Repr

/-- Column center inset from the side walls: flangeWidth / 2 + 0.3. -/
def mainColumnInset : ℚ := 1.2 / 2 + 0.3

/-- Roof-style specific rafter geometry of one primary frame. -/
inductive RafterGeom
  | gable (rafterLength : ℝ) (rafterCenterX rafterCenterY : ℚ) (angle : ℝ)
  | singleSlope (rafterLength : ℝ) (rafterCenterY : ℚ) (angle : ℝ)
  | asymmetrical (leftRafterLength rightRafterLength : ℝ)
      (leftCenterX rightCenterX rafterCenterY : ℚ) (leftAngle rightAngle : ℝ)

/-- Geometry of one primary frame. -/
structure FrameGeom where
  zPos : ℚ
  leftColumnHeight : ℚ
  rightColumnHeight : ℚ
  kneeBraceLength : ℚ
  rafter : RafterGeom

/-- Rafter of a primary frame, by roof style. -/
noncomputable def mainRafterGeom (dims : Dimensions) (roofStyle : RoofStyle)
    (pitch asymmetricOffset : ℚ) : RafterGeom :=
  let width := dims.width
  let eaveHeight := dims.eaveHeight
  let rise := roofRise width pitch
  let rafterOffset : ℚ := 0.8
  let rafterCenterY := eaveHeight + rise / 2 - rafterOffset
  match roofStyle with
  | .gable =>
      let rafterHorizLength := width / 2 - mainColumnInset
      let rafterLength := Real.sqrt ((rafterHorizLength : ℝ) ^ 2 + (rise : ℝ) ^ 2)
      .gable rafterLength (rafterHorizLength / 2) rafterCenterY (roofAngle width pitch)
  | .singleSlope =>
      let rafterHorizLength := width - mainColumnInset * 2
      let rafterLength := Real.sqrt ((rafterHorizLength : ℝ) ^ 2 + (rise : ℝ) ^ 2)
      .singleSlope rafterLength rafterCenterY (atan2 (rise : ℝ) (rafterHorizLength : ℝ))
  | .asymmetrical =>
      let peak := peakOffset width asymmetricOffset
      let leftHorizLength := peak + width / 2 - mainColumnInset
      let leftRafterLength := Real.sqrt ((leftHorizLength : ℝ) ^ 2 + (rise : ℝ) ^ 2)
      let leftCenterX := (-width / 2 + mainColumnInset + peak) / 2
      let rightHorizLength := width / 2 - mainColumnInset - peak
      let rightRafterLength := Real.sqrt ((rightHorizLength : ℝ) ^ 2 + (rise : ℝ) ^ 2)
      let rightCenterX := (width / 2 - mainColumnInset + peak) / 2
      .asymmetrical leftRafterLength rightRafterLength leftCenterX rightCenterX
        rafterCenterY (leftRoofAngle width pitch asymmetricOffset)
        (rightRoofAngle width pitch asymmetricOffset)

/-- Geometry of primary frame i. -/
noncomputable def mainFrameGeom (dims : Dimensions) (roofStyle : RoofStyle)
    (pitch asymmetricOffset : ℚ) (i : ℕ) : FrameGeom :=
  let rise := roofRise dims.width pitch
  { zPos := frameZPos dims.length i
    leftColumnHeight := dims.eaveHeight
    rightColumnHeight :=
      if roofStyle = RoofStyle.singleSlope then dims.eaveHeight + rise - 0.5
      else dims.eaveHeight
    kneeBraceLength := min (dims.eaveHeight * 0.3) 4
    rafter := mainRafterGeom dims roofStyle pitch asymmetricOffset }

/-- The list of primary frames, one per frame index. -/
noncomputable def mainFrames (dims : Dimensions) (roofStyle : RoofStyle)
    (pitch asymmetricOffset : ℚ) : List FrameGeom :=
  (List.range (numFrames dims.length).toNat).map
    (mainFrameGeom dims roofStyle pitch asymmetricOffset)

/-! ## Wall girts (Building, lines 682-760) -/

/-- Wall girt boxes for the enclosed walls plus base girts,
ungated by the visibility mode (the gate is applied in the scene). -/
def girtMeshes (dims : Dimensions) (roofStyle : RoofStyle) (pitch : ℚ)
    (enclosed : WallSide → Bool) : List BoxMesh :=
  let width := dims.width
  let length := dims.length
  let eaveHeight := dims.eaveHeight
  let rise := roofRise width pitch
  let girtSize : ℚ := 0.2
  let girtInset : ℚ := 0.9
  let westWallHeight := eaveHeight
  let eastWallHeight :=
    if roofStyle = RoofStyle.singleSlope then eaveHeight + rise else eaveHeight
  let numWestGirts := (max 2 ⌊westWallHeight / 4⌋).toNat
  let numEastGirts := (max 2 ⌊eastWallHeight / 4⌋).toNat
  let westGirtSpacing := westWallHeight / ((numWestGirts : ℚ) + 1)
  let eastGirtSpacing := eastWallHeight / ((numEastGirts : ℚ) + 1)
  (if enclosed WallSide.west then
    (List.range numWestGirts).map fun i =>
      { position := (-width / 2 + girtInset, westGirtSpacing * ((i : ℚ) + 1), 0)
        size := (girtSize, girtSize, length - girtInset * 2) }
   else []) ++
  (if enclosed WallSide.east then
    (List.range numEastGirts).map fun i =>
      { position := (width / 2 - girtInset, eastGirtSpacing * ((i : ℚ) + 1), 0)
        size := (girtSize, girtSize, length - girtInset * 2) }
   else []) ++
  (if enclosed WallSide.south then
    (List.range numWestGirts).map fun i =>
      { position := (0, westGirtSpacing * ((i : ℚ) + 1), length / 2 - girtInset)
        size := (width - girtInset * 2, girtSize, girtSize) }
   else []) ++
  (if enclosed WallSide.north then
    (List.range numWestGirts).map fun i =>
      { position := (0, westGirtSpacing * ((i : ℚ) + 1), -length / 2 + girtInset)
        size := (width - girtInset * 2, girtSize, girtSize) }
   else []) ++
  (if enclosed WallSide.west then
    [{ position := (-width / 2 + girtInset, girtSize / 2, 0)
       size := (girtSize, girtSize, length - girtInset * 2) }]
   else []) ++
  (if enclosed WallSide.east then
    [{ position := (width / 2 - girtInset, girtSize / 2, 0)
       size := (girtSize, girtSize, length - girtInset * 2) }]
   else []) ++
  (if enclosed WallSide.south then
    [{ position := (0, girtSize / 2, length / 2 - girtInset)
       size := (width - girtInset * 2, girtSize, girtSize) }]
   else []) ++
  (if enclosed WallSide.north then
    [{ position := (0, girtSize / 2, -length / 2 + girtInset)
       size := (width - girtInset * 2, girtSize, girtSize) }]
   else [])

/-! ## Roof purlins (Building, lines 1033-1154) -/

/-- Roof purlin boxes per roof style, ungated by the visibility mode. -/
def purlinMeshes (dims : Dimensions) (roofStyle : RoofStyle)
    (pitch asymmetricOffset : ℚ) : List BoxMesh :=
  let width := dims.width
  let length := dims.length
  let eaveHeight := dims.eaveHeight
  let rise := roofRise width pitch
  let purlinSize : ℚ := 0.15
  let columnInset : ℚ := 0.9
  match roofStyle with
  | .gable =>
      let numPurlins : ℕ := 5
      let rafterHorizLength := width / 2 - columnInset
      [{ position := (0, eaveHeight + rise - 0.3, 0)
         size := (purlinSize * 1.5, purlinSize * 1.5, length) }] ++
      ((List.range numPurlins).map fun idx =>
        let ratio := ((idx : ℚ) + 1) / ((numPurlins : ℚ) + 1)
        { position := (-rafterHorizLength * (1 - ratio), eaveHeight + rise * ratio - 0.3, 0)
          size := (purlinSize, purlinSize, length) }) ++
      ((List.range numPurlins).map fun idx =>
        let ratio := ((idx : ℚ) + 1) / ((numPurlins : ℚ) + 1)
        { position := (rafterHorizLength * (1 - ratio), eaveHeight + rise * ratio - 0.3, 0)
          size := (purlinSize, purlinSize, length) })
  | .singleSlope =>
      let numPurlins : ℕ := 6
      let rafterHorizLength := width - columnInset * 2
      (List.range numPurlins).map fun idx =>
        let ratio := ((idx : ℚ) + 1) / ((numPurlins : ℚ) + 1)
        { position := (-width / 2 + columnInset + rafterHorizLength * ratio,
            eaveHeight + rise * ratio - 0.3, 0)
          size := (purlinSize, purlinSize, length) }
  | .asymmetrical =>
      let peak := peakOffset width asymmetricOffset
      let leftHorizLength := peak + width / 2 - columnInset
      let numLeftPurlins := (max 3 (round (leftHorizLength / 4))).toNat
      let rightHorizLength := width / 2 - columnInset - peak
      let numRightPurlins := (max 2 (round (rightHorizLength / 4))).toNat
      [{ position := (peak, eaveHeight + rise - 0.3, 0)
         size := (purlinSize * 1.5, purlinSize * 1.5, length) }] ++
      ((List.range numLeftPurlins).map fun idx =>
        let ratio := ((idx : ℚ) + 1) / ((numLeftPurlins : ℚ) + 1)
        { position := (-width / 2 + columnInset + leftHorizLength * ratio,
            eaveHeight + rise * ratio - 0.3, 0)
          size := (purlinSize, purlinSize, length) }) ++
      ((List.range numRightPurlins).map fun idx =>
        let ratio := ((idx : ℚ) + 1) / ((numRightPurlins : ℚ) + 1)
        { position := (peak + rightHorizLength * ratio,
            eaveHeight + rise * (1 - ratio) - 0.3, 0)
          size := (purlinSize, purlinSize, length) })

/-! ## Roof panels (Building, lines 1317-1419) -/

/-- Single-slope roof panel run: width extended by the east and west
overhangs (Building, line 1365). -/
def singleSlopeTotalWidth (width overhangEast overhangWest : ℚ) : ℚ :=
  width + overhangEast + overhangWest

/-- Single-slope roof panel slope length (Building, line 1366). -/
noncomputable def singleSlopeSlopeLength (width pitch overhangEast overhangWest : ℚ) : ℝ :=
  Real.sqrt ((singleSlopeTotalWidth width overhangEast overhangWest : ℝ) ^ 2 +
    (roofRise width pitch : ℝ) ^ 2)

/-- Single-slope roof panel slope angle (Building, line 1367). -/
noncomputable def singleSlopeSlopeAngle (width pitch overhangEast overhangWest : ℚ) : ℝ :=
  atan2 (roofRise width pitch : ℝ)
    (singleSlopeTotalWidth width overhangEast overhangWest : ℝ)

/-- Single-slope rafter angle (Building, line 598):
Math.atan2(roofRise, width - columnInset * 2). -/
noncomputable def singleSlopeRafterAngle (width pitch : ℚ) : ℝ :=
  atan2 (roofRise width pitch : ℝ) ((width - mainColumnInset * 2 : ℚ) : ℝ)

/-- Roof-panel geometry, by roof style. -/
inductive RoofPanelsGeom
  | gable (leftPanelLength rightPanelLength : ℝ)
      (leftGroupX leftGroupY rightGroupX rightGroupY : ℝ)
      (groupZ totalRoofLength : ℚ) (angle : ℝ) (ridgeCapPos : ℚ × ℚ × ℚ)
  | singleSlope (slopeLength slopeAngle : ℝ)
      (xOffset eaveY groupZ totalRoofLength : ℚ)
  | asymmetrical (leftLen rightLen : ℝ) (leftGroupX rightGroupX groupY : ℚ)
      (groupZ totalRoofLength : ℚ) (leftAngle rightAngle : ℝ)
      (ridgeCapPos : ℚ × ℚ × ℚ)

/-- Roof panels of the main building, ungated by the visibility mode. -/
noncomputable def roofPanelsGeom (dims : Dimensions) (roof : RoofConfig) : RoofPanelsGeom :=
  let width := dims.width
  let length := dims.length
  let eaveHeight := dims.eaveHeight
  let pitch := roof.pitch
  let rise := roofRise width pitch
  let overhangN := roof.overhangs WallSide.north
  let overhangS := roof.overhangs WallSide.south
  let overhangE := roof.overhangs WallSide.east
  let overhangW := roof.overhangs WallSide.west
  let roofExtension : ℚ := 1.5
  let totalRoofLength := length + overhangN + overhangS + roofExtension * 2
  let groupZ := (overhangS - overhangN) / 2
  match roof.style with
  | .gable =>
      let angle := roofAngle width pitch
      let leftPanelLength := roofPanelLength width pitch + 0.5 + (overhangW : ℝ)
      let rightPanelLength := roofPanelLength width pitch + 0.5 + (overhangE : ℝ)
      let leftXOffset := -(overhangW : ℝ) / 2 * Real.cos angle
      let leftYOffset := -(overhangW : ℝ) / 2 * Real.sin angle
      let rightXOffset := (overhangE : ℝ) / 2 * Real.cos angle
      let rightYOffset := -(overhangE : ℝ) / 2 * Real.sin angle
      .gable leftPanelLength rightPanelLength
        ((-width / 4 : ℚ) + leftXOffset)
        ((eaveHeight + rise / 2 + 0.1 : ℚ) + leftYOffset)
        ((width / 4 : ℚ) + rightXOffset)
        ((eaveHeight + rise / 2 + 0.1 : ℚ) + rightYOffset)
        groupZ totalRoofLength angle
        (0, eaveHeight + rise + 0.15, 0)
  | .singleSlope =>
      .singleSlope (singleSlopeSlopeLength width pitch overhangE overhangW)
        (singleSlopeSlopeAngle width pitch overhangE overhangW)
        ((overhangE - overhangW) / 2) eaveHeight groupZ totalRoofLength
  | .asymmetrical =>
      let peak := peakOffset width roof.asymmetricOffset
      .asymmetrical
        (leftRoofLength width pitch roof.asymmetricOffset + 0.3 + (overhangW : ℝ))
        (rightRoofLength width pitch roof.asymmetricOffset + 0.3 + (overhangE : ℝ))
        ((-width / 2 + peak) / 2 - overhangW / 2)
        ((width / 2 + peak) / 2 + overhangE / 2)
        (eaveHeight + rise / 2 + 0.1)
        groupZ totalRoofLength
        (leftRoofAngle width pitch roof.asymmetricOffset)
        (rightRoofAngle width pitch roof.asymmetricOffset)
        (peak, eaveHeight + rise + 0.15, 0)

/-! ## Door placement (DraggableDoor, lines 34-71) -/

/-- World position and y-rotation of an opening mesh. -/
noncomputable def doorGeom (o : Opening) (buildingWidth buildingLength : ℚ) :
    (ℚ × ℚ × ℚ) × ℝ :=
  match o.wall with
  | .south =>
      ((-buildingWidth / 2 + o.position + o.width / 2,
        o.bottomOffset + o.height / 2, buildingLength / 2 + 0.5), 0)
  | .north =>
      ((-buildingWidth / 2 + o.position + o.width / 2,
        o.bottomOffset + o.height / 2, -buildingLength / 2 - 0.5), Real.pi)
  | .east =>
      ((buildingWidth / 2 + 0.5, o.bottomOffset + o.height / 2,
        -buildingLength / 2 + o.position + o.width / 2), -(Real.pi / 2))
  | .west =>
      ((-buildingWidth / 2 - 0.5, o.bottomOffset + o.height / 2,
        -buildingLength / 2 + o.position + o.width / 2), Real.pi / 2)
  | _ => ((0, 0, 0), 0)

/-! ## Lean-to geometry engine (Building, lines 1566-1603, 1995-2010, 2406-2430, 2816-2831) -/

/-- Derived geometry of one enabled lean-to side. -/
structure LeanToGeom where
  span : ℚ
  attachHeight : ℚ
  leanToRoofRise : ℚ
  outerHeight : ℚ
  leanToRoofLength : ℝ
  leanToRoofAngle : ℝ
  offsetAcross : ℚ
  framePositions : List ℚ
  numPurlins : ℤ

/-- Shared per-side lean-to derivation: span is the relevant main
dimension minus the two cuts, offsetAcross is the side-specific centering
offset along the wall. -/
noncomputable def leanToGeomOf (span : ℚ) (eaveHeight : ℚ) (config : LeanToConfig)
    (offsetAcross : ℚ) : LeanToGeom :=
  let attachHeight := eaveHeight - config.drop
  let rise := config.depth * (config.roofPitch / 12)
  let outerHeight := max 1 (attachHeight - rise)
  let endWallInset : ℚ := 1.5
  let numLeanToFrames : ℕ := 3
  let frameableWidth := span - endWallInset * 2
  let actualFrameSpacing := frameableWidth / ((numLeanToFrames : ℚ) - 1)
  { span := span
    attachHeight := attachHeight
    leanToRoofRise := rise
    outerHeight := outerHeight
    leanToRoofLength := Real.sqrt ((config.depth : ℝ) ^ 2 + (rise : ℝ) ^ 2)
    leanToRoofAngle := atan2 (rise : ℝ) (config.depth : ℝ)
    offsetAcross := offsetAcross
    framePositions :=
      (List.range numLeanToFrames).map fun frameIdx =>
        -span / 2 + endWallInset + (frameIdx : ℚ) * actualFrameSpacing
    numPurlins := max 3 ⌈config.depth / 3⌉ }

/-- South lean-to geometry: span from the building width,
offset (cutR - cutL) / 2. -/
noncomputable def southLeanToGeom (dims : Dimensions) (config : LeanToConfig) : LeanToGeom :=
  leanToGeomOf (dims.width - config.cutL - config.cutR) dims.eaveHeight config
    ((config.cutR - config.cutL) / 2)

/-- North lean-to geometry: span from the building width,
offset (cutL - cutR) / 2. -/
noncomputable def northLeanToGeom (dims : Dimensions) (config : LeanToConfig) : LeanToGeom :=
  leanToGeomOf (dims.width - config.cutL - config.cutR) dims.eaveHeight config
    ((config.cutL - config.cutR) / 2)

/-- West lean-to geometry: span from the building length,
offset (cutR - cutL) / 2. -/
noncomputable def westLeanToGeom (dims : Dimensions) (config : LeanToConfig) : LeanToGeom :=
  leanToGeomOf (dims.length - config.cutL - config.cutR) dims.eaveHeight config
    ((config.cutR - config.cutL) / 2)

/-- East lean-to geometry: span from the building length,
offset (cutL - cutR) / 2. -/
noncomputable def eastLeanToGeom (dims : Dimensions) (config : LeanToConfig) : LeanToGeom :=
  leanToGeomOf (dims.length - config.cutL - config.cutR) dims.eaveHeight config
    ((config.cutL - config.cutR) / 2)

/-- Per-side lean-to geometry dispatcher. -/
noncomputable def leanToGeomFor (side : WallSide) (dims : Dimensions)
    (config : LeanToConfig) : LeanToGeom :=
  match side with
  | .south => southLeanToGeom dims config
  | .north => northLeanToGeom dims config
  | .west => westLeanToGeom dims config
  | .east => eastLeanToGeom dims config

/-! ## The scene: everything the Building component emits -/

/-- The geometric output of the Building component: positioned,
dimensioned primitives, with the visibility-mode gates applied exactly
where the component applies them.  Colors appear only in materials in
the source and therefore in no field here. -/
structure SceneGeometry where
  floorSlab : BoxMesh
  frames : List FrameGeom
  girts : List BoxMesh
  purlins : List BoxMesh
  ridgeBeam : Option BoxMesh
  perimeterEaveBeams : List BoxMesh
  southEndWall : Option (List ℚ × List ℚ)
  northEndWall : Option (List ℚ × List ℚ)
  westWall : Option BoxMesh
  eastWall : Option BoxMesh
  wainscot : WallSide → Option BoxMesh
  roofPanels : Option RoofPanelsGeom
  doors : List ((ℚ × ℚ × ℚ) × ℝ)
  leanToSouth : Option LeanToGeom
  leanToNorth : Option LeanToGeom
  leanToWest : Option LeanToGeom
  leanToEast : Option LeanToGeom

/-- The end-wall polygon buffers for the current roof style. -/
def endWallBuffers (dims : Dimensions) (roof : RoofConfig) : List ℚ × List ℚ :=
  match roof.style with
  | .gable =>
      (gableEndWallVertices dims.width dims.eaveHeight roof.pitch,
       gableEndWallUVs dims.width dims.eaveHeight roof.pitch)
  | .asymmetrical =>
      (asymmetricalEndWallVertices dims.width dims.eaveHeight roof.pitch roof.asymmetricOffset,
       asymmetricalEndWallUVs dims.width dims.eaveHeight roof.pitch roof.asymmetricOffset)
  | .singleSlope =>
      (singleSlopeEndWallVertices dims.width dims.eaveHeight roof.pitch,
       singleSlopeEndWallUVs dims.width dims.eaveHeight roof.pitch)

/-- Main-building wainscot box for one side (Building, lines 1283-1311),
emitted only when walls render, wainscot is enabled, the side is enclosed
and that side has no enabled lean-to. -/
def wainscotMesh (s : BuildingState) (side : WallSide) : Option BoxMesh :=
  let width := s.dimensions.width
  let length := s.dimensions.length
  let h := s.walls.wainscotHeight
  if showWalls s.ui.visibilityMode && s.walls.wainscotEnabled &&
      s.walls.enclosed side && !(s.leanToConfigs side).enabled then
    some (match side with
      | .south => { position := (0, h / 2, length / 2 + 0.3), size := (width + 0.4, h, 0.2) }
      | .north => { position := (0, h / 2, -length / 2 - 0.3), size := (width + 0.4, h, 0.2) }
      | .west => { position := (-width / 2 - 0.3, h / 2, 0), size := (0.2, h, length + 0.4) }
      | .east => { position := (width / 2 + 0.3, h / 2, 0), size := (0.2, h, length + 0.4) })
  else none

/-- The full derived scene of the Building component. -/
noncomputable def sceneGeometry (s : BuildingState) : SceneGeometry :=
  let dims := s.dimensions
  let width := dims.width
  let length := dims.length
  let eaveHeight := dims.eaveHeight
  let roof := s.roof
  let rise := roofRise width roof.pitch
  let mode := s.ui.visibilityMode
  let beamSize : ℚ := 0.4
  let buffers := endWallBuffers dims roof
  { floorSlab :=
      { position := (0, 0.05, 0), size := (width + 1, 0.1, length + 1) }
    frames := mainFrames dims roof.style roof.pitch roof.asymmetricOffset
    girts :=
      if showSecondaryMembers mode then
        girtMeshes dims roof.style roof.pitch s.walls.enclosed
      else []
    purlins :=
      if showSecondaryMembers mode then
        purlinMeshes dims roof.style roof.pitch roof.asymmetricOffset
      else []
    ridgeBeam :=
      if roof.style = RoofStyle.gable ∨ roof.style = RoofStyle.asymmetrical then
        let totalLength := length + roof.overhangs WallSide.north + roof.overhangs WallSide.south
        let zOffset := (roof.overhangs WallSide.south - roof.overhangs WallSide.north) / 2
        let ridgeX :=
          if roof.style = RoofStyle.asymmetrical then peakOffset width roof.asymmetricOffset
          else 0
        some { position := (ridgeX, eaveHeight + rise - 0.6, zOffset)
               size := (0.3, 0.3, totalLength) }
      else none
    perimeterEaveBeams :=
      let eaveInset : ℚ := 0.9
      [ { position := (0, eaveHeight - 0.2, -length / 2 + eaveInset)
          size := (width - eaveInset * 2, beamSize * 0.8, beamSize * 0.8) },
        { position := (0, eaveHeight - 0.2, length / 2 - eaveInset)
          size := (width - eaveInset * 2, beamSize * 0.8, beamSize * 0.8) },
        { position := (-width / 2 + eaveInset, eaveHeight - 0.2, 0)
          size := (beamSize * 0.8, beamSize * 0.8, length - eaveInset * 2) },
        { position := (width / 2 - eaveInset, eaveHeight - 0.2, 0)
          size := (beamSize * 0.8, beamSize * 0.8, length - eaveInset * 2) } ]
    southEndWall :=
      if showWalls mode && s.walls.enclosed WallSide.south then some buffers else none
    northEndWall :=
      if showWalls mode && s.walls.enclosed WallSide.north then some buffers else none
    westWall :=
      if showWalls mode && s.walls.enclosed WallSide.west then
        some { position := (-width / 2, eaveHeight / 2, 0), size := (0.4, eaveHeight, length) }
      else none
    eastWall :=
      if showWalls mode && s.walls.enclosed WallSide.east then
        let eastWallHeight :=
          if roof.style = RoofStyle.singleSlope then eaveHeight + rise - 0.15 else eaveHeight
        some { position := (width / 2, eastWallHeight / 2, 0), size := (0.4, eastWallHeight, length) }
      else none
    wainscot := fun side => wainscotMesh s side
    roofPanels := if showRoof mode then some (roofPanelsGeom dims roof) else none
    doors :=
      if showWalls mode then s.openings.map (fun o => doorGeom o width length) else []
    leanToSouth :=
      if (s.leanToConfigs WallSide.south).enabled then
        some (southLeanToGeom dims (s.leanToConfigs WallSide.south))
      else none
    leanToNorth :=
      if (s.leanToConfigs WallSide.north).enabled then
        some (northLeanToGeom dims (s.leanToConfigs WallSide.north))
      else none
    leanToWest :=
      if (s.leanToConfigs WallSide.west).enabled then
        some (westLeanToGeom dims (s.leanToConfigs WallSide.west))
      else none
    leanToEast :=
      if (s.leanToConfigs WallSide.east).enabled then
        some (eastLeanToGeom dims (s.leanToConfigs WallSide.east))
      else none }

/-- The per-side lean-to slot of a scene. -/
def SceneGeometry.leanToSlot (g : SceneGeometry) : WallSide → Option LeanToGeom
  | .south => g.leanToSouth
  | .north => g.leanToNorth
  | .west => g.leanToWest
  | .east => g.leanToEast

/-- Main dimension of a side as the spec words it: width for south and
north, length for east and west. -/
def mainDimension (side : WallSide) (dims : Dimensions) : ℚ :=
  match side with
  | .south => dims.width
  | .north => dims.width
  | .east => dims.length
  | .west => dims.length

/-- A lean-to configuration matching the spec example: depth 12,
roofPitch 3, drop 1, no cuts, enabled. -/
def southDemoConfig : LeanToConfig :=
  { enabled := true, drop := 1, cutL := 0, cutR := 0, depth := 12,
    roofPitch := 3, walls := .fullLength }

/-- A store state whose south lean-to is the spec example, over the
default 30 by 40 by 10 building. -/
def southDemoState : BuildingState :=
  { initialState with
    leanToConfigs := fun side =>
      if side = WallSide.south then southDemoConfig
      else initialState.leanToConfigs side }

/-! ## Store actions (useStore.ts, lines 223-341) -/

/-- The four color slots addressable by setColor. -/
inductive ColorKey
  | roof | wall | trim | wainscot
deriving DecidableEq, Repr

/-- The store mutation entry points.  TS Partial arguments are modelled
as one Option per field (a present field replaces the old value, exactly
like the object-spread merge in the source); the generated
Date.now-based identifiers of addLeanTo and addOpening are taken as an
explicit argument. -/
inductive Action
  | setDimensions (width length eaveHeight : Option ℚ)
  | setRoof (style : Option RoofStyle) (pitch asymmetricOffset : Option ℚ)
      (overhangs : Option (WallSide → ℚ))
      (ridgeVents cupola2ft cupola3ft : Option ℕ)
  | setRoofOverhang (side : WallSide) (value : ℚ)
  | setColor (key : ColorKey) (value : String)
  | setWalls (enclosed : Option (WallSide → Bool))
      (wainscotEnabled : Option Bool) (wainscotHeight : Option ℚ)
  | setWallEnclosed (side : WallSide) (enclosed : Bool)
  | setLeanToConfig (side : WallSide) (enabled : Option Bool)
      (drop cutL cutR depth roofPitch : Option ℚ)
      (walls : Option LeanToWallType)
  | addLeanTo (wall : WallSide) (width length height : ℚ) (genId : String)
  | updateLeanTo (id : String) (wall : Option WallSide)
      (width length height : Option ℚ)
  | removeLeanTo (id : String)
  | addOpening (type : DoorType) (wall : OpeningWall)
      (position width height bottomOffset : ℚ) (genId : String)
  | updateOpening (id : String) (type : Option DoorType)
      (wall : Option OpeningWall)
      (position width height bottomOffset : Option ℚ)
  | removeOpening (id : String)
  | setPlacementMode (mode : Option DoorType)
  | setSelectedOpeningId (id : Option String)
  | setIsDraggingDoor (isDragging : Bool)
  | setEnvironment (sky : Option SkyType) (ground : Option GroundType)
      (showGrid : Option Bool)
  | setExpandedPanel (panel : Option String)
  | setViewMode (mode : ViewMode)
  | setVisibilityMode (mode : VisibilityMode)
  | resetView

/-- State transition of one store action. -/
def applyAction (s : BuildingState) (a : Action) : BuildingState :=
  match a with
  | .setDimensions w l e =>
      { s with dimensions :=
          { width := w.getD s.dimensions.width
            length := l.getD s.dimensions.length
            eaveHeight := e.getD s.dimensions.eaveHeight } }
  | .setRoof style pitch asymmetricOffset overhangs ridgeVents cupola2ft cupola3ft =>
      { s with roof :=
          { style := style.getD s.roof.style
            pitch := pitch.getD s.roof.pitch
            asymmetricOffset := asymmetricOffset.getD s.roof.asymmetricOffset
            overhangs := overhangs.getD s.roof.overhangs
            ridgeVents := ridgeVents.getD s.roof.ridgeVents
            cupola2ft := cupola2ft.getD s.roof.cupola2ft
            cupola3ft := cupola3ft.getD s.roof.cupola3ft } }
  | .setRoofOverhang side value =>
      { s with roof :=
          { s.roof with overhangs := fun x => if x = side then value else s.roof.overhangs x } }
  | .setColor key value =>
      { s with colors :=
          match key with
          | .roof => { s.colors with roof := value }
          | .wall => { s.colors with wall := value }
          | .trim => { s.colors with trim := value }
          | .wainscot => { s.colors with wainscot := value } }
  | .setWalls enclosed wainscotEnabled wainscotHeight =>
      { s with walls :=
          { enclosed := enclosed.getD s.walls.enclosed
            wainscotEnabled := wainscotEnabled.getD s.walls.wainscotEnabled
            wainscotHeight := wainscotHeight.getD s.walls.wainscotHeight } }
  | .setWallEnclosed side enclosed =>
      { s with walls :=
          { s.walls with
            enclosed := fun x => if x = side then enclosed else s.walls.enclosed x } }
  | .setLeanToConfig side enabled drop cutL cutR depth roofPitch walls =>
      { s with leanToConfigs := fun x =>
          if x = side then
            let old := s.leanToConfigs side
            { enabled := enabled.getD old.enabled
              drop := drop.getD old.drop
              cutL := cutL.getD old.cutL
              cutR := cutR.getD old.cutR
              depth := depth.getD old.depth
              roofPitch := roofPitch.getD old.roofPitch
              walls := walls.getD old.walls }
          else s.leanToConfigs x }
  | .addLeanTo wall width length height genId =>
      { s with leanTos := s.leanTos ++
          [{ id := genId, wall := wall, width := width, length := length, height := height }] }
  | .updateLeanTo id wall width length height =>
      { s with leanTos := s.leanTos.map fun lt =>
          if lt.id = id then
            { lt with
              wall := wall.getD lt.wall
              width := width.getD lt.width
              length := length.getD lt.length
              height := height.getD lt.height }
          else lt }
  | .removeLeanTo id =>
      { s with leanTos := s.leanTos.filter fun lt => lt.id ≠ id }
  | .addOpening type wall position width height bottomOffset genId =>
      { s with openings := s.openings ++
          [{ id := genId, type := type, wall := wall, position := position,
             width := width, height := height, bottomOffset := bottomOffset }] }
  | .updateOpening id type wall position width height bottomOffset =>
      { s with openings := s.openings.map fun o =>
          if o.id = id then
            { o with
              type := type.getD o.type
              wall := wall.getD o.wall
              position := position.getD o.position
              width := width.getD o.width
              height := height.getD o.height
              bottomOffset := bottomOffset.getD o.bottomOffset }
          else o }
  | .removeOpening id =>
      { s with openings := s.openings.filter fun o => o.id ≠ id }
  | .setPlacementMode mode =>
      { s with ui := { s.ui with placementMode := mode, selectedOpeningId := none } }
  | .setSelectedOpeningId id =>
      { s with ui := { s.ui with selectedOpeningId := id, placementMode := none } }
  | .setIsDraggingDoor isDragging =>
      { s with ui := { s.ui with isDraggingDoor := isDragging } }
  | .setEnvironment sky ground showGrid =>
      { s with environment :=
          { sky := sky.getD s.environment.sky
            ground := ground.getD s.environment.ground
            showGrid := showGrid.getD s.environment.showGrid } }
  | .setExpandedPanel panel =>
      { s with ui := { s.ui with expandedPanel := panel } }
  | .setViewMode mode =>
      { s with ui := { s.ui with viewMode := mode } }
  | .setVisibilityMode mode =>
      { s with ui := { s.ui with visibilityMode := mode } }
  | .resetView =>
      { s with ui := { s.ui with viewMode := .exterior, visibilityMode := .full } }

/-- Final state after a sequence of store actions from a start state. -/
def runActions (s : BuildingState) (acts : List Action) : BuildingState :=
  acts.foldl applyAction s

/-- A concrete window opening on the north wall, for evaluating the drag
engine. -/
def demoOpening : Opening :=
  { id := "opening-1", type := .windowSlider, wall := .north,
    position := 5, width := 3, height := 4, bottomOffset := 4 }

/-- A concrete drag-start record for the demo opening. -/
def demoDragStart : DragStart :=
  { position := 5, bottomOffset := 4, mouseX := 100, mouseY := 100 }

/-- Two large-delta pointer-move events for the demo drag. -/
def demoDragEvents : List (ℚ × ℚ) := [(900, -50), (-2000, 300)]

/-! ## Theorems -/

/-- atan2 on a positive x-input is arctan of the quotient. -/
theorem atan2_of_pos {y x : ℝ} (hx : 0 < x) : atan2 y x = Real.arctan (y / x) := by
  unfold atan2
  rw [if_pos hx]

/-- C3: for all width bigger than 0 and pitch between 1 and 6, the roof
solver computes roofRise = (width/2) * (pitch/12), roofAngle =
atan2(roofRise, width/2) and panelLength = sqrt((width/2)^2 + roofRise^2);
at width 30 and pitch 4 the rise is 5 and the panel length is
sqrt(225 + 25). -/
theorem roof_solver_spec (width pitch : ℚ) (hw : 0 < width)
    (hp1 : 1 ≤ pitch) (hp6 : pitch ≤ 6) :
    roofRise width pitch = (width / 2) * (pitch / 12) ∧
    roofAngle width pitch = atan2 (roofRise width pitch : ℝ) ((width : ℝ) / 2) ∧
    roofPanelLength width pitch =
      Real.sqrt (((width : ℝ) / 2) ^ 2 + (roofRise width pitch : ℝ) ^ 2) ∧
    roofRise 30 4 = 5 ∧
    roofPanelLength 30 4 = Real.sqrt (225 + 25) := by
  refine ⟨rfl, rfl, rfl, by norm_num [roofRise], ?_⟩
  have h5 : ((roofRise 30 4 : ℚ) : ℝ) = 5 := by norm_num [roofRise]
  unfold roofPanelLength
  rw [h5]
  norm_num

/-- Witness for roof_solver_spec at width 30, pitch 4. -/
theorem roof_solver_spec_witness :
    (0 : ℚ) < 30 ∧ (1 : ℚ) ≤ 4 ∧ (4 : ℚ) ≤ 6 ∧
    (roofRise 30 4 = (30 / 2 : ℚ) * (4 / 12) ∧
     roofAngle 30 4 = atan2 (roofRise 30 4 : ℝ) (((30 : ℚ) : ℝ) / 2) ∧
     roofPanelLength 30 4 =
       Real.sqrt ((((30 : ℚ) : ℝ) / 2) ^ 2 + (roofRise 30 4 : ℝ) ^ 2) ∧
     roofRise 30 4 = 5 ∧
     roofPanelLength 30 4 = Real.sqrt (225 + 25)) :=
  ⟨by norm_num, by norm_num, by norm_num,
   roof_solver_spec 30 4 (by norm_num) (by norm_num) (by norm_num)⟩

/-- C5: with asymmetricOffset 5 the asymmetrical solver yields
peakOffset 0, equal half-widths, both angles equal to the gable
roofAngle and both panel lengths equal to the gable panelLength. -/
theorem asymmetrical_centered_reduces_to_gable (width pitch : ℚ) (hw : 0 < width) :
    peakOffset width 5 = 0 ∧
    leftWidth width 5 = width / 2 ∧
    rightWidth width 5 = width / 2 ∧
    leftRoofAngle width pitch 5 = roofAngle width pitch ∧
    rightRoofAngle width pitch 5 = roofAngle width pitch ∧
    leftRoofLength width pitch 5 = roofPanelLength width pitch ∧
    rightRoofLength width pitch 5 = roofPanelLength width pitch := by
  have hp : peakOffset width 5 = 0 := by norm_num [peakOffset]
  have hl : leftWidth width 5 = width / 2 := by rw [leftWidth, hp, add_zero]
  have hr : rightWidth width 5 = width / 2 := by rw [rightWidth, hp, sub_zero]
  have hlc : ((leftWidth width 5 : ℚ) : ℝ) = (width : ℝ) / 2 := by rw [hl]; push_cast; ring
  have hrc : ((rightWidth width 5 : ℚ) : ℝ) = (width : ℝ) / 2 := by rw [hr]; push_cast; ring
  refine ⟨hp, hl, hr, ?_, ?_, ?_, ?_⟩
  · rw [leftRoofAngle, hlc, roofAngle]
  · rw [rightRoofAngle, hrc, roofAngle]
  · rw [leftRoofLength, hlc, roofPanelLength]
  · rw [rightRoofLength, hrc, roofPanelLength]

/-- Witness for asymmetrical_centered_reduces_to_gable at width 30, pitch 4. -/
theorem asymmetrical_centered_reduces_to_gable_witness :
    (0 : ℚ) < 30 ∧
    (peakOffset 30 5 = 0 ∧
     leftWidth 30 5 = (30 : ℚ) / 2 ∧
     rightWidth 30 5 = (30 : ℚ) / 2 ∧
     leftRoofAngle 30 4 5 = roofAngle 30 4 ∧
     rightRoofAngle 30 4 5 = roofAngle 30 4 ∧
     leftRoofLength 30 4 5 = roofPanelLength 30 4 ∧
     rightRoofLength 30 4 5 = roofPanelLength 30 4) :=
  ⟨by norm_num, asymmetrical_centered_reduces_to_gable 30 4 (by norm_num)⟩

/-- C4 amended: the single-slope roof face spans the building width
extended by the east and west overhangs, at slope angle
atan2(roofRise, width + overhangEast + overhangWest); with both
overhangs zero this is the full building width at
atan2(roofRise, width). -/
theorem singleSlope_roof_spec (width pitch overhangEast overhangWest : ℚ) :
    singleSlopeSlopeAngle width pitch overhangEast overhangWest =
      atan2 (roofRise width pitch : ℝ) ((width + overhangEast + overhangWest : ℚ) : ℝ) ∧
    singleSlopeSlopeLength width pitch overhangEast overhangWest =
      Real.sqrt (((width + overhangEast + overhangWest : ℚ) : ℝ) ^ 2 +
        (roofRise width pitch : ℝ) ^ 2) ∧
    singleSlopeSlopeAngle width pitch 0 0 =
      atan2 (roofRise width pitch : ℝ) ((width : ℚ) : ℝ) := by
  refine ⟨rfl, rfl, ?_⟩
  unfold singleSlopeSlopeAngle singleSlopeTotalWidth
  norm_num

/-- C4 counterexample: with the store-default east and west overhangs of
1 foot each, the single-slope face angle at width 30, pitch 4 is
atan2(5, 32), not atan2(5, 30) as the claim states. -/
theorem singleSlope_roof_claim_counterexample :
    singleSlopeSlopeAngle 30 4 1 1 ≠ atan2 (roofRise 30 4 : ℝ) ((30 : ℚ) : ℝ) := by
  intro h
  have h32 : ((singleSlopeTotalWidth 30 1 1 : ℚ) : ℝ) = 32 := by
    norm_num [singleSlopeTotalWidth]
  have h5 : ((roofRise 30 4 : ℚ) : ℝ) = 5 := by norm_num [roofRise]
  have h30 : (((30 : ℚ) : ℚ) : ℝ) = 30 := by norm_num
  unfold singleSlopeSlopeAngle at h
  rw [h32, h5, h30] at h
  rw [atan2_of_pos (by norm_num), atan2_of_pos (by norm_num)] at h
  have htan := congrArg Real.tan h
  rw [Real.tan_arctan, Real.tan_arctan] at htan
  norm_num at htan

/-- C2: for every length bigger than 0 the frame layout emits
numFrames = max(2, ceil(length/25) + 1) frames at nominal spacing
length/(numFrames - 1); interior frames sit at -length/2 + i * spacing,
the first frame is overridden to -length/2 + 1 and the last frame to
length/2 - 1; at length 40 this gives 3 frames spaced 20 apart. -/
theorem frame_layout_spec (L : ℚ) (hL : 0 < L) :
    numFrames L = max 2 (⌈L / 25⌉ + 1) ∧
    frameSpacing L = L / ((numFrames L : ℚ) - 1) ∧
    frameZPos L 0 = -L / 2 + 1 ∧
    (∀ i : ℕ, (i : ℤ) = numFrames L - 1 → frameZPos L i = L / 2 - 1) ∧
    (∀ i : ℕ, 0 < i → (i : ℤ) < numFrames L - 1 →
      frameZPos L i = -L / 2 + (i : ℚ) * frameSpacing L) ∧
    (∀ s : BuildingState, s.dimensions.length = L →
      ((sceneGeometry s).frames).length = (numFrames L).toNat) ∧
    numFrames 40 = 3 ∧ frameSpacing 40 = 20 := by
  have h40 : numFrames 40 = 3 := by
    have hc : ⌈(40 : ℚ) / 25⌉ = 2 := by
      rw [Int.ceil_eq_iff] <;> norm_num
    rw [numFrames, maxSpacing, hc]
    norm_num
  refine ⟨rfl, rfl, ?_, ?_, ?_, ?_, h40, ?_⟩
  · rw [frameZPos]
    norm_num [mainEndWallInset]
  · intro i hi
    have h2 : (2 : ℤ) ≤ numFrames L := le_max_left _ _
    have hne : i ≠ 0 := by
      intro h0
      rw [h0] at hi
      omega
    rw [frameZPos, if_neg hne, if_pos hi]
    norm_num [mainEndWallInset]
  · intro i hi hlast
    have hne : i ≠ 0 := Nat.pos_iff_ne_zero.mp hi
    have hne2 : ¬((i : ℤ) = numFrames L - 1) := by omega
    rw [frameZPos, if_neg hne, if_neg hne2]
  · intro s hs
    show ((mainFrames s.dimensions s.roof.style s.roof.pitch s.roof.asymmetricOffset).length = _)
    simp [mainFrames, hs]
  · rw [frameSpacing, h40]
    norm_num

/-- Witness for frame_layout_spec at length 40. -/
theorem frame_layout_spec_witness :
    (0 : ℚ) < 40 ∧
    (numFrames 40 = max 2 (⌈(40 : ℚ) / 25⌉ + 1) ∧
     frameSpacing 40 = 40 / ((numFrames 40 : ℚ) - 1) ∧
     frameZPos 40 0 = -(40 : ℚ) / 2 + 1 ∧
     (∀ i : ℕ, (i : ℤ) = numFrames 40 - 1 → frameZPos 40 i = (40 : ℚ) / 2 - 1) ∧
     (∀ i : ℕ, 0 < i → (i : ℤ) < numFrames 40 - 1 →
       frameZPos 40 i = -(40 : ℚ) / 2 + (i : ℚ) * frameSpacing 40) ∧
     (∀ s : BuildingState, s.dimensions.length = 40 →
       ((sceneGeometry s).frames).length = (numFrames 40).toNat) ∧
     numFrames 40 = 3 ∧ frameSpacing 40 = 20) :=
  ⟨by norm_num, frame_layout_spec 40 (by norm_num)⟩

/-- Scene lean-to slot, south: gated on the enabled flag. -/
theorem sceneGeometry_leanToSouth (s : BuildingState) :
    (sceneGeometry s).leanToSouth =
      if (s.leanToConfigs WallSide.south).enabled = true then
        some (southLeanToGeom s.dimensions (s.leanToConfigs WallSide.south))
      else none := rfl

/-- Scene lean-to slot, north: gated on the enabled flag. -/
theorem sceneGeometry_leanToNorth (s : BuildingState) :
    (sceneGeometry s).leanToNorth =
      if (s.leanToConfigs WallSide.north).enabled = true then
        some (northLeanToGeom s.dimensions (s.leanToConfigs WallSide.north))
      else none := rfl

/-- Scene lean-to slot, west: gated on the enabled flag. -/
theorem sceneGeometry_leanToWest (s : BuildingState) :
    (sceneGeometry s).leanToWest =
      if (s.leanToConfigs WallSide.west).enabled = true then
        some (westLeanToGeom s.dimensions (s.leanToConfigs WallSide.west))
      else none := rfl

/-- Scene lean-to slot, east: gated on the enabled flag. -/
theorem sceneGeometry_leanToEast (s : BuildingState) :
    (sceneGeometry s).leanToEast =
      if (s.leanToConfigs WallSide.east).enabled = true then
        some (eastLeanToGeom s.dimensions (s.leanToConfigs WallSide.east))
      else none := rfl

/-- C1: for every enabled lean-to side the engine derives
span = mainDimension - cutL - cutR, attachHeight = eaveHeight - drop,
leanToRoofRise = depth * (roofPitch / 12) and
outerHeight = max(1, attachHeight - leanToRoofRise), which is always at
least 1 and never rejected. -/
theorem leanTo_derived_spec (s : BuildingState) (side : WallSide)
    (h : (s.leanToConfigs side).enabled = true) :
    ∃ g : LeanToGeom,
      (sceneGeometry s).leanToSlot side = some g ∧
      g.span = mainDimension side s.dimensions -
        (s.leanToConfigs side).cutL - (s.leanToConfigs side).cutR ∧
      g.attachHeight = s.dimensions.eaveHeight - (s.leanToConfigs side).drop ∧
      g.leanToRoofRise = (s.leanToConfigs side).depth *
        ((s.leanToConfigs side).roofPitch / 12) ∧
      g.outerHeight = max 1 (g.attachHeight - g.leanToRoofRise) ∧
      1 ≤ g.outerHeight := by
  cases side with
  | south =>
      refine ⟨southLeanToGeom s.dimensions (s.leanToConfigs WallSide.south),
        ?_, rfl, rfl, rfl, rfl, le_max_left _ _⟩
      show (sceneGeometry s).leanToSouth = _
      rw [sceneGeometry_leanToSouth, h, if_pos rfl]
  | north =>
      refine ⟨northLeanToGeom s.dimensions (s.leanToConfigs WallSide.north),
        ?_, rfl, rfl, rfl, rfl, le_max_left _ _⟩
      show (sceneGeometry s).leanToNorth = _
      rw [sceneGeometry_leanToNorth, h, if_pos rfl]
  | west =>
      refine ⟨westLeanToGeom s.dimensions (s.leanToConfigs WallSide.west),
        ?_, rfl, rfl, rfl, rfl, le_max_left _ _⟩
      show (sceneGeometry s).leanToWest = _
      rw [sceneGeometry_leanToWest, h, if_pos rfl]
  | east =>
      refine ⟨eastLeanToGeom s.dimensions (s.leanToConfigs WallSide.east),
        ?_, rfl, rfl, rfl, rfl, le_max_left _ _⟩
      show (sceneGeometry s).leanToEast = _
      rw [sceneGeometry_leanToEast, h, if_pos rfl]

/-- Witness for leanTo_derived_spec: the spec example, a south lean-to
with depth 12, roofPitch 3, drop 1 on a building of eave height 10,
yielding attachHeight 9, leanToRoofRise 3 and outerHeight 6. -/
theorem leanTo_derived_spec_witness :
    (southDemoState.leanToConfigs WallSide.south).enabled = true ∧
    (∃ g : LeanToGeom,
      (sceneGeometry southDemoState).leanToSlot WallSide.south = some g ∧
      g.span = mainDimension WallSide.south southDemoState.dimensions -
        (southDemoState.leanToConfigs WallSide.south).cutL -
        (southDemoState.leanToConfigs WallSide.south).cutR ∧
      g.attachHeight = southDemoState.dimensions.eaveHeight -
        (southDemoState.leanToConfigs WallSide.south).drop ∧
      g.leanToRoofRise = (southDemoState.leanToConfigs WallSide.south).depth *
        ((southDemoState.leanToConfigs WallSide.south).roofPitch / 12) ∧
      g.outerHeight = max 1 (g.attachHeight - g.leanToRoofRise) ∧
      1 ≤ g.outerHeight) ∧
    (southLeanToGeom southDemoState.dimensions southDemoConfig).attachHeight = 9 ∧
    (southLeanToGeom southDemoState.dimensions southDemoConfig).leanToRoofRise = 3 ∧
    (southLeanToGeom southDemoState.dimensions southDemoConfig).outerHeight = 6 := by
  refine ⟨rfl, leanTo_derived_spec southDemoState WallSide.south rfl, ?_, ?_, ?_⟩
  · show (10 : ℚ) - 1 = 9
    norm_num
  · show (12 : ℚ) * (3 / 12) = 3
    norm_num
  · show max 1 ((10 : ℚ) - 1 - 12 * (3 / 12)) = 6
    rw [show ((10 : ℚ) - 1 - 12 * (3 / 12)) = 6 by norm_num,
      max_eq_right (by norm_num : (1 : ℚ) ≤ 6)]

/-- C7: the visibility mode maps deterministically to the three layer
flags, and the primary frames of the scene are independent of the
visibility mode. -/
theorem visibility_policy_spec (m : VisibilityMode) :
    (showWalls m = true ↔ m = VisibilityMode.full) ∧
    (showRoof m = true ↔ (m = VisibilityMode.full ∨ m = VisibilityMode.hideWalls)) ∧
    (showSecondaryMembers m = true ↔ m ≠ VisibilityMode.frameOnly) ∧
    (∀ s : BuildingState,
      (sceneGeometry { s with ui := { s.ui with visibilityMode := m } }).frames =
        (sceneGeometry s).frames) := by
  refine ⟨?_, ?_, ?_, fun s => rfl⟩ <;>
    cases m <;> simp [showWalls, showRoof, showSecondaryMembers]

/-- The wainscot slot of the scene is the wainscotMesh gate. -/
theorem sceneGeometry_wainscot (s : BuildingState) (side : WallSide) :
    (sceneGeometry s).wainscot side = wainscotMesh s side := rfl

/-- C8: a wainscot band is emitted for a side only when wainscot is
enabled, the side is enclosed and that side has no enabled lean-to; in
particular an enabled lean-to suppresses the band entirely. -/
theorem wainscot_leanTo_suppression (s : BuildingState) (side : WallSide) :
    ((s.leanToConfigs side).enabled = true → (sceneGeometry s).wainscot side = none) ∧
    (∀ b : BoxMesh, (sceneGeometry s).wainscot side = some b →
      s.walls.wainscotEnabled = true ∧ s.walls.enclosed side = true ∧
      (s.leanToConfigs side).enabled = false) := by
  rw [sceneGeometry_wainscot]
  constructor
  · intro h
    unfold wainscotMesh
    simp [h]
  · intro b hb
    unfold wainscotMesh at hb
    by_cases hc : (showWalls s.ui.visibilityMode && s.walls.wainscotEnabled &&
        s.walls.enclosed side && !(s.leanToConfigs side).enabled) = true
    · simp only [Bool.and_eq_true, Bool.not_eq_eq_eq_not, Bool.not_true] at hc
      exact ⟨hc.1.1.2, hc.1.2, hc.2⟩
    · rw [if_neg hc] at hb
      exact absurd hb (by simp)

/-- Witness for wainscot_leanTo_suppression: on the demo state the south
lean-to is enabled, so no south wainscot band is emitted. -/
theorem wainscot_leanTo_suppression_witness :
    ((southDemoState.leanToConfigs WallSide.south).enabled = true →
      (sceneGeometry southDemoState).wainscot WallSide.south = none) ∧
    (∀ b : BoxMesh,
      (sceneGeometry southDemoState).wainscot WallSide.south = some b →
      southDemoState.walls.wainscotEnabled = true ∧
      southDemoState.walls.enclosed WallSide.south = true ∧
      (southDemoState.leanToConfigs WallSide.south).enabled = false) :=
  wainscot_leanTo_suppression southDemoState WallSide.south

/-- C9: two configuration snapshots that differ only in the four color
assignments produce identical derived geometry, and the setColor action
leaves the derived geometry unchanged. -/
theorem colors_no_geometric_effect (s : BuildingState) (c : Colors) :
    sceneGeometry { s with colors := c } = sceneGeometry s ∧
    (∀ (key : ColorKey) (value : String),
      sceneGeometry (applyAction s (Action.setColor key value)) = sceneGeometry s) :=
  ⟨rfl, fun key _ => by cases key <;> rfl⟩

/-- C10: from the initial store state, placementMode and
selectedOpeningId are never simultaneously non-null after any sequence
of store actions. -/
theorem placement_selection_mutual_exclusion (acts : List Action) :
    (runActions initialState acts).ui.placementMode = none ∨
    (runActions initialState acts).ui.selectedOpeningId = none := by
  suffices h : ∀ (s : BuildingState),
      (s.ui.placementMode = none ∨ s.ui.selectedOpeningId = none) →
      (runActions s acts).ui.placementMode = none ∨
      (runActions s acts).ui.selectedOpeningId = none from
    h initialState (Or.inl rfl)
  induction acts with
  | nil => exact fun s hs => hs
  | cons a rest ih =>
      intro s hs
      apply ih
      cases a
      case setPlacementMode mode => exact Or.inr rfl
      case setSelectedOpeningId id => exact Or.inl rfl
      all_goals exact hs

/-- Clamping into [0, M] lands in [0, M] when M is nonnegative. -/
theorem clamp_mem {M x : ℚ} (hM : 0 ≤ M) :
    0 ≤ max 0 (min M x) ∧ max 0 (min M x) ≤ M :=
  ⟨le_max_left _ _, max_le hM (le_trans (min_le_left _ _) le_rfl)⟩

/-- One pointer-move keeps the horizontal position inside
[0, wallLength - width] whenever width does not exceed the wall. -/
theorem handlePointerMove_fst_bounds (o : Opening) (bw bl sw sh : ℚ)
    (start : DragStart) (cur : ℚ × ℚ) (x y : ℚ)
    (hW : o.width ≤ getWallLength o.wall bw bl) :
    0 ≤ (handlePointerMove o bw bl sw sh start cur x y).1 ∧
    (handlePointerMove o bw bl sw sh start cur x y).1 ≤
      getWallLength o.wall bw bl - o.width := by
  have hsub : (0 : ℚ) ≤ getWallLength o.wall bw bl - o.width := sub_nonneg.mpr hW
  have hmaxPos : maxPosition (getWallLength o.wall bw bl) o.width =
      getWallLength o.wall bw bl - o.width := max_eq_right hsub
  unfold handlePointerMove
  dsimp only
  constructor
  · exact le_max_left _ _
  · rw [hmaxPos]
    exact max_le hsub (min_le_left _ _)

/-- One pointer-move keeps the vertical offset inside [0, 14 - height]
whenever the current offset is and height does not exceed 14. -/
theorem handlePointerMove_snd_bounds (o : Opening) (bw bl sw sh : ℚ)
    (start : DragStart) (cur : ℚ × ℚ) (x y : ℚ)
    (hH : o.height ≤ 14) (hcur0 : 0 ≤ cur.2) (hcur1 : cur.2 ≤ 14 - o.height) :
    0 ≤ (handlePointerMove o bw bl sw sh start cur x y).2 ∧
    (handlePointerMove o bw bl sw sh start cur x y).2 ≤ 14 - o.height := by
  have hsub : (0 : ℚ) ≤ 14 - o.height := sub_nonneg.mpr hH
  unfold handlePointerMove
  dsimp only
  by_cases hw : isWindow o.type
  · rw [if_pos hw]
    refine ⟨le_max_left _ _, ?_⟩
    rw [max_eq_right hsub]
    exact max_le hsub (min_le_left _ _)
  · rw [if_neg hw]
    exact ⟨hcur0, hcur1⟩

/-- One pointer-move leaves the vertical offset unchanged when the
opening is not a window. -/
theorem handlePointerMove_snd_const (o : Opening) (bw bl sw sh : ℚ)
    (start : DragStart) (cur : ℚ × ℚ) (x y : ℚ)
    (hw : isWindow o.type = false) :
    (handlePointerMove o bw bl sw sh start cur x y).2 = cur.2 := by
  unfold handlePointerMove
  dsimp only
  rw [hw]
  simp

/-- C6: over any finite sequence of pointer-move events of arbitrary
delta, the dragged opening stays inside [0, wallLength - width]
horizontally and [0, 14 - height] vertically, the vertical offset only
moves for windows, and the horizontal delta is sign-inverted exactly on
the north and west walls. -/
theorem drag_clamp_invariant (o : Opening) (bw bl sw sh : ℚ)
    (start : DragStart) (init : ℚ × ℚ) (events : List (ℚ × ℚ))
    (hW : o.width ≤ getWallLength o.wall bw bl)
    (hH : o.height ≤ 14)
    (hpos0 : 0 ≤ init.1) (hpos1 : init.1 ≤ getWallLength o.wall bw bl - o.width)
    (hbot0 : 0 ≤ init.2) (hbot1 : init.2 ≤ 14 - o.height) :
    (0 ≤ (dragMoves o bw bl sw sh start init events).1 ∧
      (dragMoves o bw bl sw sh start init events).1 ≤
        getWallLength o.wall bw bl - o.width) ∧
    (0 ≤ (dragMoves o bw bl sw sh start init events).2 ∧
      (dragMoves o bw bl sw sh start init events).2 ≤ 14 - o.height) ∧
    (isWindow o.type = false →
      (dragMoves o bw bl sw sh start init events).2 = init.2) ∧
    (∀ (cur : ℚ × ℚ) (x y : ℚ),
      o.wall = OpeningWall.north ∨ o.wall = OpeningWall.west →
      (handlePointerMove o bw bl sw sh start cur x y).1 =
        max 0 (min (maxPosition (getWallLength o.wall bw bl) o.width)
          (start.position - (x - start.mouseX) * (getWallLength o.wall bw bl / sw * 2)))) ∧
    (∀ (cur : ℚ × ℚ) (x y : ℚ),
      o.wall = OpeningWall.south ∨ o.wall = OpeningWall.east →
      (handlePointerMove o bw bl sw sh start cur x y).1 =
        max 0 (min (maxPosition (getWallLength o.wall bw bl) o.width)
          (start.position + (x - start.mouseX) * (getWallLength o.wall bw bl / sw * 2)))) := by
  have hfold : ∀ (evs : List (ℚ × ℚ)) (p : ℚ × ℚ),
      0 ≤ p.1 → p.1 ≤ getWallLength o.wall bw bl - o.width →
      0 ≤ p.2 → p.2 ≤ 14 - o.height →
      (0 ≤ (dragMoves o bw bl sw sh start p evs).1 ∧
        (dragMoves o bw bl sw sh start p evs).1 ≤
          getWallLength o.wall bw bl - o.width) ∧
      (0 ≤ (dragMoves o bw bl sw sh start p evs).2 ∧
        (dragMoves o bw bl sw sh start p evs).2 ≤ 14 - o.height) := by
    intro evs
    induction evs with
    | nil => exact fun p h0 h1 h2 h3 => ⟨⟨h0, h1⟩, ⟨h2, h3⟩⟩
    | cons e rest ih =>
        intro p h0 h1 h2 h3
        have hstep1 := handlePointerMove_fst_bounds o bw bl sw sh start p e.1 e.2 hW
        have hstep2 := handlePointerMove_snd_bounds o bw bl sw sh start p e.1 e.2 hH h2 h3
        exact ih (handlePointerMove o bw bl sw sh start p e.1 e.2)
          hstep1.1 hstep1.2 hstep2.1 hstep2.2
  have hconst : ∀ (evs : List (ℚ × ℚ)) (p : ℚ × ℚ), isWindow o.type = false →
      (dragMoves o bw bl sw sh start p evs).2 = p.2 := by
    intro evs
    induction evs with
    | nil => exact fun p _ => rfl
    | cons e rest ih =>
        intro p hw
        rw [show dragMoves o bw bl sw sh start p (e :: rest) =
            dragMoves o bw bl sw sh start
              (handlePointerMove o bw bl sw sh start p e.1 e.2) rest from rfl,
          ih _ hw, handlePointerMove_snd_const o bw bl sw sh start p e.1 e.2 hw]
  refine ⟨(hfold events init hpos0 hpos1 hbot0 hbot1).1,
    (hfold events init hpos0 hpos1 hbot0 hbot1).2,
    hconst events init, ?_, ?_⟩
  · intro cur x y h
    unfold handlePointerMove
    rcases h with h | h <;> simp [h]
  · intro cur x y h
    unfold handlePointerMove
    rcases h with h | h <;> simp [h]

/-- Witness for drag_clamp_invariant: a north-wall window dragged with
two large-delta moves stays inside its horizontal and vertical bounds. -/
theorem drag_clamp_invariant_witness :
    demoOpening.width ≤ getWallLength demoOpening.wall 30 40 ∧
    demoOpening.height ≤ 14 ∧
    ((0 : ℚ) ≤ (dragMoves demoOpening 30 40 800 600 demoDragStart (5, 4) demoDragEvents).1 ∧
      (dragMoves demoOpening 30 40 800 600 demoDragStart (5, 4) demoDragEvents).1 ≤
        getWallLength demoOpening.wall 30 40 - demoOpening.width) ∧
    ((0 : ℚ) ≤ (dragMoves demoOpening 30 40 800 600 demoDragStart (5, 4) demoDragEvents).2 ∧
      (dragMoves demoOpening 30 40 800 600 demoDragStart (5, 4) demoDragEvents).2 ≤
        14 - demoOpening.height) :=
  ⟨by norm_num [demoOpening, getWallLength], by norm_num [demoOpening],
   (drag_clamp_invariant demoOpening 30 40 800 600 demoDragStart (5, 4) demoDragEvents
     (by norm_num [demoOpening, getWallLength]) (by norm_num [demoOpening])
     (by norm_num) (by norm_num [demoOpening, getWallLength])
     (by norm_num) (by norm_num [demoOpening])).1,
   (drag_clamp_invariant demoOpening 30 40 800 600 demoDragStart (5, 4) demoDragEvents
     (by norm_num [demoOpening, getWallLength]) (by norm_num [demoOpening])
     (by norm_num) (by norm_num [demoOpening, getWallLength])
     (by norm_num) (by norm_num [demoOpening])).2.1⟩

end SteelDesign
